import Mathlib

/-!
# Verification of the middleware-dispatch model of `node-api3-guided`

A shallow embedding of the Express-based hubs API of this repository:
the route handlers and middleware of `src/hubs/hubs-router.js`, the
controller variant in the README (`hubs-controller.js`), the router in
`src/api/hubs/hubs-router.js`, and the two terminal error handlers
(`server.js` in the README notes and the router file `src/unnamed/part_000`).
The middleware dispatcher itself is Express library code, not part of the
repository, so it is modelled from the specification (§4.1).
-/

namespace NodeApi3

/-- A parsed JSON object body: an association list of string fields. -/
abbrev Obj := List (String × String)

/-- A hub entity as returned by the data-access collaborator. -/
structure Hub where
  id : Nat
  name : String
deriving DecidableEq, Repr

/-- A message entity (sub-resource of a hub). -/
structure Msg where
  text : String
  hub_id : Nat
deriving DecidableEq, Repr

/-- The value passed to `next(...)` to signal failure. Express accepts any
value; the repository passes either an `Error` instance (`isError = true`,
only `message` meaningful) or a plain object with optional `status`,
`statusCode` and `error` (here `cause`) fields. An absent field is `none`. -/
structure ErrPayload where
  message : String
  status : Option Nat
  statusCode : Option Nat
  cause : Option String
  isError : Bool
deriving DecidableEq, Repr

/-- The JSON bodies the routers write with `res.json(...)`. -/
inductive Body where
  | hubs (l : List Hub)
  | hub (h : Hub)
  | hubOpt (h : Option Hub)
  | msgs (l : List Msg)
  | msg (m : Msg)
  | msgObj (message : String)
  | msgErrObj (message : String) (err : String)
  | mirror (p : ErrPayload)
deriving DecidableEq, Repr

/-- An HTTP response: status code plus JSON body. -/
structure Response where
  status : Nat
  body : Body
deriving DecidableEq, Repr

/-- The per-request context: the `req` object's mutable fields used by the
routers (`req.params.id`, `req.body`, `req.query`, the attached `req.hub`). -/
structure Ctx where
  paramsId : Nat
  body : Option Obj
  query : Obj
  hub : Option Hub
deriving DecidableEq, Repr

/-- What a single middleware invocation does: call `next()` (Continue),
call `next(payload)` (Fail), or write a response (Complete). -/
inductive StepResult where
  | next (c : Ctx)
  | fail (c : Ctx) (p : ErrPayload)
  | complete (r : Response)
deriving DecidableEq, Repr

/-- Handler kind: Express tags 4-parameter middleware as error handling. -/
inductive Kind where
  | normal
  | errh
deriving DecidableEq, Repr

/-- Modelled from the spec: a HandlerEntry of §3 — a method+path predicate
on the request descriptor, a kind, and an action. The action receives the
stashed error payload (present only when invoked in error-seeking mode)
and the request context. -/
structure Entry (ρ : Type) where
  accepts : ρ → Bool
  kind : Kind
  action : Option ErrPayload → Ctx → StepResult

/-- The signal an invocation produced, as recorded in the walk trace. -/
inductive SigTag where
  | cont
  | failed
  | completed
deriving DecidableEq, Repr

/-- One recorded invocation of the dispatcher walk: the absolute index of
the invoked entry and the signal it produced. -/
structure Inv where
  idx : Nat
  sig : SigTag
deriving DecidableEq, Repr

/-- Terminal state of a walk (spec §4.1): a response was produced, the list
was exhausted while seeking an error handler (unhandled error), or the list
was exhausted with no response (silent-timeout contract violation). -/
inductive Outcome where
  | completed (r : Response)
  | unhandledError (p : Option ErrPayload)
  | fellOff
deriving DecidableEq, Repr

/-- Modelled from the spec: does an entry's kind match the current mode?
`Normal` entries run when not seeking an error handler, `ErrorHandler`
entries only while seeking (§4.1 walk algorithm). -/
def kindSeeks (k : Kind) (seeking : Bool) : Bool :=
  match k, seeking with
  | Kind.normal, false => true
  | Kind.errh, true => true
  | _, _ => false

/-- Prepend a recorded invocation to a walk result. -/
def consTrace (v : Inv) (r : List Inv × Outcome) : List Inv × Outcome :=
  (v :: r.1, r.2)

/-- Modelled from the spec: the middleware dispatcher walk of §4.1 (the
dispatcher is Express library code, absent from `src/`). Starting at
absolute index `i` with mode flag `seeking` and stashed payload `p`, scan
forward for the next entry whose predicate matches the request and whose
kind matches the mode; invoke it; on Continue advance and keep the mode,
on Fail advance, set seeking and stash the payload, on a written response
terminate. Returns the trace of invocations and the terminal outcome. -/
def walk {ρ : Type} (req : ρ) :
    List (Entry ρ) → Nat → Bool → Option ErrPayload → Ctx → List Inv × Outcome
  | [], _, seeking, p, _ =>
      ([], if seeking then Outcome.unhandledError p else Outcome.fellOff)
  | e :: rest, i, seeking, p, c =>
      if e.accepts req && kindSeeks e.kind seeking then
        match e.action p c with
        | StepResult.next c' =>
            consTrace ⟨i, SigTag.cont⟩ (walk req rest (i + 1) seeking p c')
        | StepResult.fail c' p' =>
            consTrace ⟨i, SigTag.failed⟩ (walk req rest (i + 1) true (some p') c')
        | StepResult.complete r => ([⟨i, SigTag.completed⟩], Outcome.completed r)
      else walk req rest (i + 1) seeking p c

/-- The data-access collaborator (`hubs-model.js` / `messages-model.js`),
treated as an oracle: each operation the routers call, returning either a
resolved value or a rejected error message. -/
structure Db where
  find : Obj → Except String (List Hub)
  findById : Nat → Except String (Option Hub)
  add : Option Obj → Except String Hub
  update : Nat → Option Obj → Except String (Option Hub)
  remove : Nat → Except String Nat
  findHubMessages : Nat → Except String (List Msg)
  msgAdd : Obj → Nat → Except String Msg

/-- JS strict equality of `req.body` with the object literal `{}`:
`body === {}` compares references against a freshly allocated object,
so it is `false` for every value of `body`. -/
def jsEqEmptyLiteral (_ : Option Obj) : Bool := false

/-- A JS `Error` instance as a `next(...)` payload: only `message` is set;
`status`/`statusCode` are absent (`undefined`). -/
def jsError (m : String) : ErrPayload :=
  { message := m, status := none, statusCode := none, cause := none, isError := true }

/-- JS truthiness of a numeric field: `undefined` and `0` are falsy. -/
def jsTruthyNum : Option Nat → Option Nat
  | some n => if n = 0 then none else some n
  | none => none

/-- `error.status || error.statusCode || 400` from the `server.js`
error handler (README notes, lines 441-445). -/
def deriveCode (p : ErrPayload) : Nat :=
  match jsTruthyNum p.status with
  | some n => n
  | none =>
    match jsTruthyNum p.statusCode with
    | some n => n
    | none => 400

/-- The logging middleware at the top of both router files:
`router.use((req, res, next) => { console.log('hubs router!'); next(); })`. -/
def routerLogger (_ : Option ErrPayload) (c : Ctx) : StepResult :=
  StepResult.next c

/-- `getHandler` of `src/hubs/hubs-router.js` lines 57-69:
`Hubs.find(req.query)` then 200 with the hubs, or a directly written 500
`{message: 'Error retrieving the hubs'}` in the catch branch. -/
def getHandler (db : Db) (_ : Option ErrPayload) (c : Ctx) : StepResult :=
  match db.find c.query with
  | Except.ok hubs => StepResult.complete ⟨200, Body.hubs hubs⟩
  | Except.error _ => StepResult.complete ⟨500, Body.msgObj "Error retrieving the hubs"⟩

/-- `validateId` of `src/hubs/hubs-router.js` lines 230-246: on found,
attach `req.hub` and `next()`; on not found, `next(new Error('does not
exist'))`; in the catch branch, a directly written
`res.status(500).json({ message: 'exception', err })`. -/
def validateId (db : Db) (_ : Option ErrPayload) (c : Ctx) : StepResult :=
  match db.findById c.paramsId with
  | Except.ok (some hub) => StepResult.next { c with hub := some hub }
  | Except.ok none => StepResult.fail c (jsError "does not exist")
  | Except.error e => StepResult.complete ⟨500, Body.msgErrObj "exception" e⟩

/-- The route action of `router.get('/:id', validateId, ...)` (lines 97-99):
`res.status(200).json(req.hub)`. -/
def getByIdAction (_ : Option ErrPayload) (c : Ctx) : StepResult :=
  StepResult.complete ⟨200, Body.hubOpt c.hub⟩

/-- `requireBody` of `src/hubs/hubs-router.js` lines 251-257:
`!body || body === {}` guards a directly written 400; `body === {}` is a
reference comparison with a fresh literal and never holds. -/
def requireBody (_ : Option ErrPayload) (c : Ctx) : StepResult :=
  if c.body.isNone || jsEqEmptyLiteral c.body then
    StepResult.complete ⟨400, Body.msgObj "Please include request body"⟩
  else StepResult.next c

/-- The route action of `router.post('/', requireBody, ...)` (lines
132-144): `Hubs.add(req.body)` then 201 with the created hub, or a
directly written 500 `{message: 'Error adding the hub'}`. -/
def postAction (db : Db) (_ : Option ErrPayload) (c : Ctx) : StepResult :=
  match db.add c.body with
  | Except.ok hub => StepResult.complete ⟨201, Body.hub hub⟩
  | Except.error _ => StepResult.complete ⟨500, Body.msgObj "Error adding the hub"⟩

/-- The route action of `router.delete('/:id', validateId, ...)` (lines
146-159): `Hubs.remove(req.params.id)`, then 200 on a positive count,
404 `{message: 'The hub could not be found'}` on a zero count, or a
directly written 500 in the catch branch. -/
def deleteAction (db : Db) (_ : Option ErrPayload) (c : Ctx) : StepResult :=
  match db.remove c.paramsId with
  | Except.ok count =>
    if count > 0 then StepResult.complete ⟨200, Body.msgObj "The hub has been nuked"⟩
    else StepResult.complete ⟨404, Body.msgObj "The hub could not be found"⟩
  | Except.error e => StepResult.complete ⟨500, Body.msgErrObj "Error removing the hub" e⟩

/-- The route action of `router.put('/:id', [validateId, requireBody], ...)`
(lines 164-177): `Hubs.update` then 200 with the hub, 404 when absent, or
a directly written 500 in the catch branch. -/
def putAction (db : Db) (_ : Option ErrPayload) (c : Ctx) : StepResult :=
  match db.update c.paramsId c.body with
  | Except.ok (some hub) => StepResult.complete ⟨200, Body.hub hub⟩
  | Except.ok none => StepResult.complete ⟨404, Body.msgObj "The hub could not be found"⟩
  | Except.error e => StepResult.complete ⟨500, Body.msgErrObj "Error updating the hub" e⟩

/-- The route action of `router.get('/:id/messages', validateId, ...)`
(lines 179-191). -/
def getMessagesAction (db : Db) (_ : Option ErrPayload) (c : Ctx) : StepResult :=
  match db.findHubMessages c.paramsId with
  | Except.ok messages => StepResult.complete ⟨200, Body.msgs messages⟩
  | Except.error _ =>
    StepResult.complete ⟨500, Body.msgObj "Error getting the messages for the hub"⟩

/-- The route action of `router.post('/:id/messages', validateId,
requireBody, ...)` (lines 203-217): builds
`messageInfo = { ...req.body, hub_id: req.params.id }`, calls
`Messages.add(messageInfo)` and responds **210** with the message. -/
def postMessagesAction (db : Db) (_ : Option ErrPayload) (c : Ctx) : StepResult :=
  match db.msgAdd (c.body.getD []) c.paramsId with
  | Except.ok message => StepResult.complete ⟨210, Body.msg message⟩
  | Except.error _ =>
    StepResult.complete ⟨500, Body.msgObj "Error getting the messages for the hub"⟩

/-- The terminal error handler of `server.js` (README notes lines 441-445):
`const code = error.status || error.statusCode || 400;
res.status(code).json(error)`. -/
def serverErrorHandler (p? : Option ErrPayload) (_ : Ctx) : StepResult :=
  let p := p?.getD (jsError "")
  StepResult.complete ⟨deriveCode p, Body.mirror p⟩

/-- The terminal error handler of the router file `src/unnamed/part_000`
lines 256-259: `res.status(400).json({ message: error.message })`,
registered by `router.use(errorHandler)` at line 264. -/
def routerErrorHandler (p? : Option ErrPayload) (_ : Ctx) : StepResult :=
  let p := p?.getD (jsError "")
  StepResult.complete ⟨400, Body.msgObj p.message⟩

/-- A plain-object `next(...)` payload `{ message, status }`. -/
def objPayload (m : String) (st : Nat) : ErrPayload :=
  { message := m, status := some st, statusCode := none, cause := none, isError := false }

/-- A plain-object `next(...)` payload `{ error: err, message, status }`. -/
def causePayload (m : String) (st : Nat) (e : String) : ErrPayload :=
  { message := m, status := some st, statusCode := none, cause := some e, isError := false }

/-- `getHubs` of the controller module (README `hubs-controller.js`):
success responds 200; failure signals
`next({ error: err, message: 'error retrieving hubs', status: 500 })`. -/
def ctrlGetHubs (db : Db) (_ : Option ErrPayload) (c : Ctx) : StepResult :=
  match db.find c.query with
  | Except.ok hubs => StepResult.complete ⟨200, Body.hubs hubs⟩
  | Except.error e => StepResult.fail c (causePayload "error retrieving hubs" 500 e)

/-- `validateId` of the controller module (README lines 526-540): on found,
attach `req.hub` and `next()`; on not found,
`next({ message: 'invalid id', status: 405 })`; on a thrown lookup error,
`next({ error: err, message: err.message, status: 500 })`. -/
def ctrlValidateId (db : Db) (_ : Option ErrPayload) (c : Ctx) : StepResult :=
  match db.findById c.paramsId with
  | Except.ok (some hub) => StepResult.next { c with hub := some hub }
  | Except.ok none => StepResult.fail c (objPayload "invalid id" 405)
  | Except.error e => StepResult.fail c (causePayload e 500 e)

/-- `requireBody` of the controller module (README lines 542-548):
`req.body && Object.keys(req.body).length > 0` continues, otherwise
`next({ message: 'body is required', status: 400 })`. -/
def ctrlRequireBody (_ : Option ErrPayload) (c : Ctx) : StepResult :=
  match c.body with
  | some b =>
    if b.length > 0 then StepResult.next c
    else StepResult.fail c (objPayload "body is required" 400)
  | none => StepResult.fail c (objPayload "body is required" 400)

/-- The route action inside the controller's `getHubById` array (README
lines 499-504): `res.json(req.hub)` (status defaults to 200). -/
def ctrlGetHubByIdAction (_ : Option ErrPayload) (c : Ctx) : StepResult :=
  StepResult.complete ⟨200, Body.hubOpt c.hub⟩

/-- `req.hub.id` in the api-router handlers; those handlers run after
`validateId`, which attached the hub, so the default is never reached on
a dispatched request. -/
def hubIdOf (c : Ctx) : Nat :=
  (c.hub.getD ⟨0, ""⟩).id

/-- The `POST /` action of `src/api/hubs/hubs-router.js` lines 81-88:
success responds 201 with the created hub; the catch branch signals
`next({ error: err, message: err.message, status: 500 })`. -/
def apiPostAction (db : Db) (_ : Option ErrPayload) (c : Ctx) : StepResult :=
  match db.add c.body with
  | Except.ok hub => StepResult.complete ⟨201, Body.hub hub⟩
  | Except.error e => StepResult.fail c (causePayload e 500 e)

/-- The `DELETE /:id` action of `src/api/hubs/hubs-router.js` lines 90-97. -/
def apiDeleteAction (db : Db) (_ : Option ErrPayload) (c : Ctx) : StepResult :=
  match db.remove (hubIdOf c) with
  | Except.ok _ =>
    StepResult.complete ⟨200, Body.msgObj ("hub #" ++ toString (hubIdOf c) ++ " removed")⟩
  | Except.error e => StepResult.fail c (causePayload "error removing the hub" 500 e)

/-- The `PUT /:id` action of `src/api/hubs/hubs-router.js` lines 99-107:
responds 200 with whatever `update` resolved to; the catch branch signals
`next({ error: err, message: 'error updating the hub', status: 500 })`. -/
def apiPutAction (db : Db) (_ : Option ErrPayload) (c : Ctx) : StepResult :=
  match db.update (hubIdOf c) c.body with
  | Except.ok hub => StepResult.complete ⟨200, Body.hubOpt hub⟩
  | Except.error e => StepResult.fail c (causePayload "error updating the hub" 500 e)

/-- The `GET /:id/messages` action of `src/api/hubs/hubs-router.js`
lines 109-116. -/
def apiGetMessagesAction (db : Db) (_ : Option ErrPayload) (c : Ctx) : StepResult :=
  match db.findHubMessages (hubIdOf c) with
  | Except.ok messages => StepResult.complete ⟨200, Body.msgs messages⟩
  | Except.error e => StepResult.fail c (causePayload "error getting messages" 500 e)

/-- The `POST /:id/messages` action of `src/api/hubs/hubs-router.js`
lines 118-127: builds `{ ...req.body, hub_id: req.params.id }`, adds the
message and responds **210**; the catch branch signals
`next({ error: err, message: 'error adding message', status: 500 })`. -/
def apiPostMessagesAction (db : Db) (_ : Option ErrPayload) (c : Ctx) : StepResult :=
  match db.msgAdd (c.body.getD []) c.paramsId with
  | Except.ok message => StepResult.complete ⟨210, Body.msg message⟩
  | Except.error e => StepResult.fail c (causePayload "error adding message" 500 e)

/-- A normal (non-error) handler entry of the hubs router; the chains below
model the entries that match a given METHOD/path, so the predicate holds. -/
def entryN (a : Option ErrPayload → Ctx → StepResult) : Entry Unit :=
  { accepts := fun _ => true, kind := Kind.normal, action := a }

/-- An error-handling (4-parameter) entry. -/
def entryE (a : Option ErrPayload → Ctx → StepResult) : Entry Unit :=
  { accepts := fun _ => true, kind := Kind.errh, action := a }

/-- The matching entries for `GET /api/hubs/:id` under
`src/hubs/hubs-router.js`: the router logger, `validateId`, the route
action, and the terminal `server.js` error handler. -/
def getHubByIdChain (db : Db) : List (Entry Unit) :=
  [entryN routerLogger, entryN (validateId db), entryN getByIdAction,
   entryE serverErrorHandler]

/-- The matching entries for `POST /api/hubs` under
`src/hubs/hubs-router.js`: logger, `requireBody`, the add action, and the
terminal error handler. -/
def postHubsChain (db : Db) : List (Entry Unit) :=
  [entryN routerLogger, entryN requireBody, entryN (postAction db),
   entryE serverErrorHandler]

/-- The matching entries for `DELETE /api/hubs/:id` under
`src/hubs/hubs-router.js`. -/
def deleteHubChain (db : Db) : List (Entry Unit) :=
  [entryN routerLogger, entryN (validateId db), entryN (deleteAction db),
   entryE serverErrorHandler]

/-- The matching entries for `POST /api/hubs/:id/messages` under
`src/hubs/hubs-router.js`. -/
def postMessagesChain (db : Db) : List (Entry Unit) :=
  [entryN routerLogger, entryN (validateId db), entryN requireBody,
   entryN (postMessagesAction db), entryE serverErrorHandler]

/-- The matching entries for `GET /api/hubs/:id` under
`src/api/hubs/hubs-router.js` with the controller middleware. -/
def apiGetHubByIdChain (db : Db) : List (Entry Unit) :=
  [entryN routerLogger, entryN (ctrlValidateId db), entryN ctrlGetHubByIdAction,
   entryE serverErrorHandler]

/-- The hub of the spec's create scenario: `{id: 1, name: "Acme"}`. -/
def hub1 : Hub := ⟨1, "Acme"⟩

/-- A concrete message entity for the sub-resource scenarios. -/
def msg1 : Msg := ⟨"hi", 42⟩

/-- A request for id 42 whose parsed body is the empty object `{}`. -/
def ctx0 : Ctx := ⟨42, some [], [], none⟩

/-- A request for id 42 with body `{name: "Acme"}`. -/
def ctxBody : Ctx := ⟨42, some [("name", "Acme")], [], none⟩

/-- A request for id 42 with no parsed body at all. -/
def ctxNoBody : Ctx := ⟨42, none, [], none⟩

/-- An oracle where every lookup finds nothing and `add` succeeds. -/
def dbAbsent : Db :=
  { find := fun _ => Except.ok []
    findById := fun _ => Except.ok none
    add := fun _ => Except.ok hub1
    update := fun _ _ => Except.ok none
    remove := fun _ => Except.ok 0
    findHubMessages := fun _ => Except.ok []
    msgAdd := fun _ _ => Except.ok msg1 }

/-- An oracle where every operation succeeds and id 42 exists. -/
def dbOk : Db :=
  { find := fun _ => Except.ok [hub1]
    findById := fun _ => Except.ok (some hub1)
    add := fun _ => Except.ok hub1
    update := fun _ _ => Except.ok (some hub1)
    remove := fun _ => Except.ok 1
    findHubMessages := fun _ => Except.ok [msg1]
    msgAdd := fun _ _ => Except.ok msg1 }

/-- An oracle where every operation rejects with `"boom"`. -/
def dbThrow : Db :=
  { find := fun _ => Except.error "boom"
    findById := fun _ => Except.error "boom"
    add := fun _ => Except.error "boom"
    update := fun _ _ => Except.error "boom"
    remove := fun _ => Except.error "boom"
    findHubMessages := fun _ => Except.error "boom"
    msgAdd := fun _ _ => Except.error "boom" }

/-- An oracle where id 42 exists but `remove` reports zero rows removed. -/
def dbFoundZero : Db :=
  { find := fun _ => Except.ok [hub1]
    findById := fun _ => Except.ok (some hub1)
    add := fun _ => Except.ok hub1
    update := fun _ _ => Except.ok (some hub1)
    remove := fun _ => Except.ok 0
    findHubMessages := fun _ => Except.ok [msg1]
    msgAdd := fun _ _ => Except.ok msg1 }

/-- A step neither writes an error-status response itself: it may continue,
fail, or complete only with a success-range status. -/
def neverWritesErrorResponse : StepResult → Prop
  | StepResult.complete r => r.status < 400
  | _ => True

theorem walk_idx_ge {ρ : Type} (req : ρ) (l : List (Entry ρ)) :
    ∀ i s p c, ∀ v ∈ (walk req l i s p c).1, i ≤ v.idx := by
  induction l with
  | nil => intro i s p c v hv; simp [walk] at hv
  | cons e rest ih =>
    intro i s p c v hv
    rw [walk] at hv
    by_cases hm : (e.accepts req && kindSeeks e.kind s) = true
    · rw [if_pos hm] at hv
      cases ha : e.action p c with
      | next c' =>
        rw [ha] at hv
        simp only [consTrace, List.mem_cons] at hv
        rcases hv with h | h
        · simp [h]
        · exact Nat.le_of_succ_le (ih (i + 1) s p c' v h)
      | fail c' p' =>
        rw [ha] at hv
        simp only [consTrace, List.mem_cons] at hv
        rcases hv with h | h
        · simp [h]
        · exact Nat.le_of_succ_le (ih (i + 1) true (some p') c' v h)
      | complete r =>
        rw [ha] at hv
        simp at hv
        simp [hv]
    · rw [if_neg hm] at hv
      exact Nat.le_of_succ_le (ih (i + 1) s p c v hv)

theorem walk_pairwise {ρ : Type} (req : ρ) (l : List (Entry ρ)) :
    ∀ i s p c, List.Pairwise (fun a b => a.idx < b.idx) (walk req l i s p c).1 := by
  induction l with
  | nil => intro i s p c; simp [walk]
  | cons e rest ih =>
    intro i s p c
    rw [walk]
    by_cases hm : (e.accepts req && kindSeeks e.kind s) = true
    · rw [if_pos hm]
      cases ha : e.action p c with
      | next c' =>
        simp only [consTrace]
        refine List.Pairwise.cons ?_ (ih (i + 1) s p c')
        intro v hv
        exact Nat.lt_of_succ_le (walk_idx_ge req rest (i + 1) s p c' v hv)
      | fail c' p' =>
        simp only [consTrace]
        refine List.Pairwise.cons ?_ (ih (i + 1) true (some p') c')
        intro v hv
        exact Nat.lt_of_succ_le (walk_idx_ge req rest (i + 1) true (some p') c' v hv)
      | complete r => simp
    · rw [if_neg hm]
      exact ih (i + 1) s p c

/-- C2: for a request with an absent id, `validateId` does signal Fail with
the not-found payload, but the response status is 405 — not the 404 the
claim states: the controller `validateId` signals
`{message: 'invalid id', status: 405}` and the terminal handler mirrors
that status, while the plain-router `validateId` signals an `Error` with no
status field at all, so the terminal handler falls back to 400. The
commented-out code in both router files uses 404, so 405 is a slip in the
code, not the intent. -/
theorem validate_absent_id_not_404 :
    walk () (apiGetHubByIdChain dbAbsent) 0 false none ctx0 =
      ([⟨0, SigTag.cont⟩, ⟨1, SigTag.failed⟩, ⟨3, SigTag.completed⟩],
       Outcome.completed ⟨405, Body.mirror (objPayload "invalid id" 405)⟩) ∧
    walk () (getHubByIdChain dbAbsent) 0 false none ctx0 =
      ([⟨0, SigTag.cont⟩, ⟨1, SigTag.failed⟩, ⟨3, SigTag.completed⟩],
       Outcome.completed ⟨400, Body.mirror (jsError "does not exist")⟩) ∧
    (405 ≠ 404 ∧ 400 ≠ 404) := by
  refine ⟨by decide, by decide, by decide, by decide⟩

/-- C3: `POST /api/hubs` with the empty body object `{}`: because
`body === {}` is a reference comparison that never holds, `requireBody`
calls `next()` instead of rejecting, `Hubs.add` IS invoked (the entry at
index 2 completes), and the response is 201 with the created hub — not the
400 "body is required" rejection the claim states. The commented-out
variants of `requireBody` in the same file test
`Object.keys(body).length === 0`, which is the documented intent. -/
theorem requireBody_empty_object_reaches_add :
    requireBody none ctx0 = StepResult.next ctx0 ∧
    walk () (postHubsChain dbAbsent) 0 false none ctx0 =
      ([⟨0, SigTag.cont⟩, ⟨1, SigTag.cont⟩, ⟨2, SigTag.completed⟩],
       Outcome.completed ⟨201, Body.hub hub1⟩) := by
  refine ⟨by decide, by decide⟩

/-- C5: creating a hub does respond 201 with the exact entity `add`
returned, but creating a message under `POST /:id/messages` responds 210 —
not 201 — when `Messages.add` succeeds; the spec itself flags 210 as a
typo for 201 in the teaching material. -/
theorem create_status_codes :
    (walk () (postHubsChain dbOk) 0 false none ctxBody).2 =
      Outcome.completed ⟨201, Body.hub hub1⟩ ∧
    (walk () (postMessagesChain dbOk) 0 false none ctxBody).2 =
      Outcome.completed ⟨210, Body.msg msg1⟩ ∧
    (210 ≠ 201) := by
  refine ⟨by decide, by decide, by decide⟩

/-- C4 counterexample: the terminal error handler of the router file
`src/unnamed/part_000` does NOT derive the status from the payload — for a
payload carrying `status: 500` it still responds 400 with
`{message: error.message}`. -/
theorem router_error_handler_ignores_status :
    routerErrorHandler (some (objPayload "boom" 500)) ctx0 =
      StepResult.complete ⟨400, Body.msgObj "boom"⟩ ∧
    ((400 : Nat) ≠ 500) := by
  refine ⟨by decide, by decide⟩

/-- C4 (amended): the `server.js` terminal error handler derives the status
from the payload's `status`, else `statusCode`, else defaults to 400, and
mirrors the payload as the body; the router-level terminal error handler of
`src/unnamed/part_000`, however, always responds 400 with
`{message: error.message}` regardless of the payload's status fields. -/
theorem terminal_error_handler_status_derivation (p : ErrPayload) (c : Ctx) :
    (serverErrorHandler (some p) c =
      StepResult.complete ⟨deriveCode p, Body.mirror p⟩) ∧
    (∀ n, p.status = some n → n ≠ 0 → deriveCode p = n) ∧
    (p.status = none → ∀ m, p.statusCode = some m → m ≠ 0 → deriveCode p = m) ∧
    (p.status = none → p.statusCode = none → deriveCode p = 400) ∧
    (routerErrorHandler (some p) c =
      StepResult.complete ⟨400, Body.msgObj p.message⟩) := by
  refine ⟨rfl, ?_, ?_, ?_, rfl⟩
  · intro n hn hnz
    simp [deriveCode, jsTruthyNum, hn, hnz]
  · intro hs m hm hmz
    simp [deriveCode, jsTruthyNum, hs, hm, hmz]
  · intro hs hsc
    simp [deriveCode, jsTruthyNum, hs, hsc]

/-- C4 witness: a payload carrying `status: 500` makes the `server.js`
terminal handler respond 500. -/
theorem terminal_error_handler_status_derivation_witness :
    (objPayload "x" 500).status = some 500 ∧ (500 : Nat) ≠ 0 ∧
    deriveCode (objPayload "x" 500) = 500 :=
  ⟨rfl, by decide,
   (terminal_error_handler_status_derivation (objPayload "x" 500) ctx0).2.1 500 rfl (by decide)⟩

/-- C6 counterexample: handlers of `src/hubs/hubs-router.js` DO format
error JSON themselves instead of signaling Fail: `getHandler`'s catch
branch writes a 500 body, `validateId`'s catch branch writes a 500 body,
and `requireBody` writes a 400 body directly. -/
theorem handlers_self_format_errors :
    getHandler dbThrow none ctx0 =
      StepResult.complete ⟨500, Body.msgObj "Error retrieving the hubs"⟩ ∧
    validateId dbThrow none ctx0 =
      StepResult.complete ⟨500, Body.msgErrObj "exception" "boom"⟩ ∧
    requireBody none ctxNoBody =
      StepResult.complete ⟨400, Body.msgObj "Please include request body"⟩ := by
  refine ⟨by decide, by decide, by decide⟩

/-- C6 (amended): in the api-router variant
(`src/api/hubs/hubs-router.js` with its controller), every failure a
handler can encounter — a rejected collaborator operation in any of its
catch branches, a not-found id, a missing or attribute-less body — is
turned into a Fail signal carrying the exact message/status/cause payload
of the source, and no handler ever completes with an error-status
response, so only the terminal error handler formats error JSON; in the
`src/hubs/hubs-router.js` variant, by contrast, the catch branches format
500/400 responses inside the handlers themselves. -/
theorem api_handlers_never_format_errors (db : Db) (p : Option ErrPayload) (c : Ctx) :
    (∀ e, db.find c.query = Except.error e →
      ctrlGetHubs db p c = StepResult.fail c (causePayload "error retrieving hubs" 500 e)) ∧
    (∀ e, db.findById c.paramsId = Except.error e →
      ctrlValidateId db p c = StepResult.fail c (causePayload e 500 e)) ∧
    (db.findById c.paramsId = Except.ok none →
      ctrlValidateId db p c = StepResult.fail c (objPayload "invalid id" 405)) ∧
    (c.body = none →
      ctrlRequireBody p c = StepResult.fail c (objPayload "body is required" 400)) ∧
    (∀ b, c.body = some b → b.length = 0 →
      ctrlRequireBody p c = StepResult.fail c (objPayload "body is required" 400)) ∧
    (∀ e, db.add c.body = Except.error e →
      apiPostAction db p c = StepResult.fail c (causePayload e 500 e)) ∧
    (∀ e, db.remove (hubIdOf c) = Except.error e →
      apiDeleteAction db p c = StepResult.fail c (causePayload "error removing the hub" 500 e)) ∧
    (∀ e, db.update (hubIdOf c) c.body = Except.error e →
      apiPutAction db p c = StepResult.fail c (causePayload "error updating the hub" 500 e)) ∧
    (∀ e, db.findHubMessages (hubIdOf c) = Except.error e →
      apiGetMessagesAction db p c =
        StepResult.fail c (causePayload "error getting messages" 500 e)) ∧
    (∀ e, db.msgAdd (c.body.getD []) c.paramsId = Except.error e →
      apiPostMessagesAction db p c =
        StepResult.fail c (causePayload "error adding message" 500 e)) ∧
    neverWritesErrorResponse (ctrlGetHubs db p c) ∧
    neverWritesErrorResponse (ctrlValidateId db p c) ∧
    neverWritesErrorResponse (ctrlRequireBody p c) ∧
    neverWritesErrorResponse (ctrlGetHubByIdAction p c) ∧
    neverWritesErrorResponse (apiPostAction db p c) ∧
    neverWritesErrorResponse (apiDeleteAction db p c) ∧
    neverWritesErrorResponse (apiPutAction db p c) ∧
    neverWritesErrorResponse (apiGetMessagesAction db p c) ∧
    neverWritesErrorResponse (apiPostMessagesAction db p c) := by
  refine ⟨?_, ?_, ?_, ?_, ?_, ?_, ?_, ?_, ?_, ?_, ?_, ?_, ?_, ?_, ?_, ?_, ?_, ?_, ?_⟩
  · intro e he; simp [ctrlGetHubs, he]
  · intro e he; simp [ctrlValidateId, he]
  · intro he; simp [ctrlValidateId, he]
  · intro he; simp [ctrlRequireBody, he]
  · intro b hb h0; simp [ctrlRequireBody, hb, h0]
  · intro e he; simp [apiPostAction, he]
  · intro e he; simp [apiDeleteAction, he]
  · intro e he; simp [apiPutAction, he]
  · intro e he; simp [apiGetMessagesAction, he]
  · intro e he; simp [apiPostMessagesAction, he]
  · unfold neverWritesErrorResponse ctrlGetHubs
    cases db.find c.query <;> simp
  · unfold neverWritesErrorResponse ctrlValidateId
    rcases h : db.findById c.paramsId with e | _ | hub <;> simp [h]
  · unfold neverWritesErrorResponse ctrlRequireBody
    rcases c.body with _ | b
    · simp
    · by_cases hb : b.length > 0 <;> simp [hb]
  · unfold neverWritesErrorResponse ctrlGetHubByIdAction
    simp
  · unfold neverWritesErrorResponse apiPostAction
    cases db.add c.body <;> simp
  · unfold neverWritesErrorResponse apiDeleteAction
    cases db.remove (hubIdOf c) <;> simp
  · unfold neverWritesErrorResponse apiPutAction
    cases db.update (hubIdOf c) c.body <;> simp
  · unfold neverWritesErrorResponse apiGetMessagesAction
    cases db.findHubMessages (hubIdOf c) <;> simp
  · unfold neverWritesErrorResponse apiPostMessagesAction
    cases db.msgAdd (c.body.getD []) c.paramsId <;> simp

/-- C6 witness: with a rejecting oracle, `ctrlGetHubs` signals Fail with
the internal payload rather than writing a response. -/
theorem api_handlers_never_format_errors_witness :
    dbThrow.find ctx0.query = Except.error "boom" ∧
    ctrlGetHubs dbThrow none ctx0 =
      StepResult.fail ctx0 (causePayload "error retrieving hubs" 500 "boom") :=
  ⟨rfl, (api_handlers_never_format_errors dbThrow none ctx0).1 "boom" rfl⟩

/-- C1: forward-only error routing — for every request, handler list,
starting position and mode, if the invocation at index `j` signals Fail,
every later invocation (error handler or normal) has a strictly larger
index: the error-seeking scan starts strictly after the failure point and
never wraps around or looks backward, so an error handler registered at
index 0 is unreachable for errors raised by later handlers. -/
theorem middleware_forward_only {ρ : Type} (req : ρ) (l : List (Entry ρ))
    (i : Nat) (s : Bool) (p : Option ErrPayload) (c : Ctx)
    (pre post : List Inv) (j : Nat)
    (h : (walk req l i s p c).1 = pre ++ ⟨j, SigTag.failed⟩ :: post) :
    ∀ v ∈ post, j < v.idx := by
  have hp := walk_pairwise req l i s p c
  rw [h] at hp
  have hc := (List.pairwise_append.mp hp).2.1
  exact fun v hv => (List.pairwise_cons.mp hc).1 v hv

/-- C1 witness: in the `GET /:id` chain with an absent id, the failure at
index 1 is followed only by the error handler at index 3. -/
theorem middleware_forward_only_witness :
    (walk () (apiGetHubByIdChain dbAbsent) 0 false none ctx0).1 =
      [⟨0, SigTag.cont⟩] ++ ⟨1, SigTag.failed⟩ :: [⟨3, SigTag.completed⟩] ∧
    (1 : Nat) < 3 :=
  ⟨by decide,
   middleware_forward_only () (apiGetHubByIdChain dbAbsent) 0 false none ctx0
     [⟨0, SigTag.cont⟩] [⟨3, SigTag.completed⟩] 1 (by decide)
     ⟨3, SigTag.completed⟩ (by decide)⟩

/-- C7: once a handler writes a response (signals Complete), no further
handler — normal or error — is invoked: a Complete invocation is always
the last element of the walk trace, for every request, handler list and
position. -/
theorem complete_terminates_walk {ρ : Type} (req : ρ) (l : List (Entry ρ)) :
    ∀ i s p c pre j post,
      (walk req l i s p c).1 = pre ++ ⟨j, SigTag.completed⟩ :: post →
      post = [] := by
  induction l with
  | nil =>
    intro i s p c pre j post h
    rw [walk] at h
    exact (List.cons_ne_nil _ _ (List.append_eq_nil.mp h.symm).2).elim
  | cons e rest ih =>
    intro i s p c pre j post h
    rw [walk] at h
    by_cases hm : (e.accepts req && kindSeeks e.kind s) = true
    · rw [if_pos hm] at h
      cases ha : e.action p c with
      | next c' =>
        rw [ha] at h
        simp only [consTrace] at h
        cases pre with
        | nil => simp at h
        | cons a pre' =>
          rw [List.cons_append] at h
          injection h with h1 h2
          exact ih (i + 1) s p c' pre' j post h2
      | fail c' p' =>
        rw [ha] at h
        simp only [consTrace] at h
        cases pre with
        | nil => simp at h
        | cons a pre' =>
          rw [List.cons_append] at h
          injection h with h1 h2
          exact ih (i + 1) true (some p') c' pre' j post h2
      | complete r =>
        rw [ha] at h
        cases pre with
        | nil =>
          injection h with h1 h2
          exact h2.symm
        | cons a pre' =>
          rw [List.cons_append] at h
          injection h with h1 h2
          exact (List.cons_ne_nil _ _ (List.append_eq_nil.mp h2.symm).2).elim
    · rw [if_neg hm] at h
      exact ih (i + 1) s p c pre j post h

/-- C7 witness: in the `POST /` chain the Complete at index 2 ends the
trace. -/
theorem complete_terminates_walk_witness :
    (walk () (postHubsChain dbAbsent) 0 false none ctx0).1 =
      [⟨0, SigTag.cont⟩, ⟨1, SigTag.cont⟩] ++ ⟨2, SigTag.completed⟩ :: [] ∧
    ([] : List Inv) = [] :=
  ⟨by decide,
   complete_terminates_walk () (postHubsChain dbAbsent) 0 false none ctx0
     [⟨0, SigTag.cont⟩, ⟨1, SigTag.cont⟩] 2 [] (by decide)⟩

/-- C9: determinism — any route pipeline built over two data-access
oracles that agree on every operation produces identical traces and
terminal outcomes for the same request, so re-running an unchanged request
yields the same status, body and set of invoked handlers. -/
theorem dispatch_deterministic (f : Db → List (Entry Unit)) (db1 db2 : Db)
    (hfind : ∀ q, db1.find q = db2.find q)
    (hfindById : ∀ n, db1.findById n = db2.findById n)
    (hadd : ∀ b, db1.add b = db2.add b)
    (hupdate : ∀ n b, db1.update n b = db2.update n b)
    (hremove : ∀ n, db1.remove n = db2.remove n)
    (hmsgs : ∀ n, db1.findHubMessages n = db2.findHubMessages n)
    (hmsgAdd : ∀ b n, db1.msgAdd b n = db2.msgAdd b n)
    (c : Ctx) :
    walk () (f db1) 0 false none c = walk () (f db2) 0 false none c := by
  have hdb : db1 = db2 := by
    cases db1
    cases db2
    simp only [Db.mk.injEq]
    refine ⟨funext hfind, funext hfindById, funext hadd, ?_, funext hremove,
      funext hmsgs, ?_⟩
    · funext n b
      exact hupdate n b
    · funext b n
      exact hmsgAdd b n
  rw [hdb]

/-- C9 witness: the delete pipeline over one fixed oracle is equal to
itself when re-run. -/
theorem dispatch_deterministic_witness :
    walk () (deleteHubChain dbOk) 0 false none ctx0 =
      walk () (deleteHubChain dbOk) 0 false none ctx0 :=
  dispatch_deterministic deleteHubChain dbOk dbOk
    (fun _ => rfl) (fun _ => rfl) (fun _ => rfl) (fun _ _ => rfl)
    (fun _ => rfl) (fun _ => rfl) (fun _ _ => rfl) ctx0

/-- C8: validation short-circuit — when `validateId` signals Fail for an
absent id, the wrapped route action of `GET /:id` (the entry at index 2)
is never invoked: the walk runs the logger, fails at `validateId`, skips
the action and terminates in the error handler. -/
theorem validate_short_circuit (db : Db) (c : Ctx)
    (h : db.findById c.paramsId = Except.ok none) :
    walk () (getHubByIdChain db) 0 false none c =
      ([⟨0, SigTag.cont⟩, ⟨1, SigTag.failed⟩, ⟨3, SigTag.completed⟩],
       Outcome.completed ⟨400, Body.mirror (jsError "does not exist")⟩) ∧
    ∀ v ∈ (walk () (getHubByIdChain db) 0 false none c).1, v.idx ≠ 2 := by
  have hw : walk () (getHubByIdChain db) 0 false none c =
      ([⟨0, SigTag.cont⟩, ⟨1, SigTag.failed⟩, ⟨3, SigTag.completed⟩],
       Outcome.completed ⟨400, Body.mirror (jsError "does not exist")⟩) := by
    simp [walk, getHubByIdChain, entryN, entryE, routerLogger, validateId, h,
      getByIdAction, serverErrorHandler, kindSeeks, consTrace, deriveCode,
      jsTruthyNum, jsError]
  refine ⟨hw, ?_⟩
  rw [hw]
  decide

/-- C8 witness: with the all-absent oracle, the `GET /:id` walk fails at
`validateId` and never reaches the route action. -/
theorem validate_short_circuit_witness :
    dbAbsent.findById ctx0.paramsId = Except.ok none ∧
    walk () (getHubByIdChain dbAbsent) 0 false none ctx0 =
      ([⟨0, SigTag.cont⟩, ⟨1, SigTag.failed⟩, ⟨3, SigTag.completed⟩],
       Outcome.completed ⟨400, Body.mirror (jsError "does not exist")⟩) :=
  ⟨rfl, (validate_short_circuit dbAbsent ctx0 rfl).1⟩

/-- C10: the `DELETE /:id` action re-checks existence independently of the
preceding `validateId`: even when the id was found (and the hub attached),
the action inspects the count returned by `remove` and responds 200 only
for a positive count, 404 (`The hub could not be found`) for a zero
count. -/
theorem delete_rechecks_existence (db : Db) (c : Ctx) (hb : Hub) (count : Nat)
    (hfound : db.findById c.paramsId = Except.ok (some hb))
    (hrem : db.remove c.paramsId = Except.ok count) :
    (walk () (deleteHubChain db) 0 false none c).2 =
      Outcome.completed
        (if count > 0 then ⟨200, Body.msgObj "The hub has been nuked"⟩
         else ⟨404, Body.msgObj "The hub could not be found"⟩) := by
  by_cases hc : count > 0 <;>
    simp [walk, deleteHubChain, entryN, entryE, routerLogger, validateId,
      deleteAction, kindSeeks, consTrace, hfound, hrem, hc]

/-- C10 witness: id 42 is found, yet `remove` reports zero rows, so the
delete pipeline responds 404. -/
theorem delete_rechecks_existence_witness :
    dbFoundZero.findById ctx0.paramsId = Except.ok (some hub1) ∧
    dbFoundZero.remove ctx0.paramsId = Except.ok 0 ∧
    (walk () (deleteHubChain dbFoundZero) 0 false none ctx0).2 =
      Outcome.completed ⟨404, Body.msgObj "The hub could not be found"⟩ :=
  ⟨rfl, rfl, by
    have h := delete_rechecks_existence dbFoundZero ctx0 hub1 0 rfl rfl
    simpa using h⟩

end NodeApi3
